/-
  Verification of the sales-dashboard script
  (src/ChukwuebukaOkonkwo_PythonAss5.py) against its design spec.

  The script is a pandas/streamlit dashboard.  We shallowly embed the
  data model (a dataframe of rows mapping column names to scalar cells)
  and the pandas operations the script uses: `groupby(...)[...].sum()`,
  `sort_values`, `sort_index`, `to_datetime(errors="coerce")`, `dropna`,
  `value_counts`, `max`, `idxmax`, `sum`, together with the script's own
  `detect_column` and the three tab bodies.
-/
import Mathlib

namespace Dashboard

/-- A scalar cell of the uploaded table: a number, a string, a parsed
calendar date (encoded `y*10000 + m*100 + d`, so numeric order is
chronological order), or a missing value (pandas `NaN`/`NaT`/`None`).
Numbers are modelled as integers: the dataset's sales and ratings are
whole numbers, and the spec's only fractional quantities (the percentage
shares) are produced by the final division, which we carry out in `ℚ`. -/
inductive Value where
  | vNum : Int → Value
  | vStr : String → Value
  | vDate : Nat → Value
  | vNA : Value
deriving DecidableEq, Repr

namespace Value

/-- Order-embedding of cells into a lexicographic sum.  `vNA` is placed
at the bottom so that folding `max` over a series starting from `vNA`
skips missing values, exactly as pandas `max`/`idxmax` do (`skipna`).
Within a constructor the payload order is the pandas one: numeric order
for numbers and dates, code-point lexicographic order for strings. -/
def key : Value → (Unit ⊕ₗ Int ⊕ₗ List Char ⊕ₗ Nat)
  | vNA => toLex (Sum.inl ())
  | vNum q => toLex (Sum.inr (toLex (Sum.inl q)))
  | vStr s => toLex (Sum.inr (toLex (Sum.inr (toLex (Sum.inl s.data)))))
  | vDate n => toLex (Sum.inr (toLex (Sum.inr (toLex (Sum.inr n)))))

instance : LinearOrder Value :=
  LinearOrder.lift' key (by
    intro a b h
    cases a <;> cases b <;> simp [key] at h <;>
      first
      | rfl
      | exact congrArg (fun l => Value.vStr (String.mk l)) h
      | simp [h])

end Value

/-- A row of the uploaded table: an association of column names to cells.
Absent entries read as missing (`vNA`). -/
abbrev Row := List (String × Value)

/-- Reading a cell of a row (a pandas scalar access): the stored value,
or `NaN` when the row has no entry for that column. -/
def Row.cell (r : Row) (c : String) : Value :=
  (r.lookup c).getD Value.vNA

/-- The in-memory table produced by `pd.read_csv` / `pd.read_excel`:
an ordered list of column names and an ordered list of rows. -/
structure DataFrame where
  columns : List String
  rows : List Row
deriving DecidableEq, Repr

/-- Python `str.lower()` (the dataset's column names are ASCII, where
`Char.toLower` agrees with Python). -/
def pyLower (s : String) : String :=
  ⟨s.data.map Char.toLower⟩

/-- `cols_lower = {c.lower(): c for c in df.columns}` — a Python dict
comprehension, so a later column overwrites an earlier one with the same
lowercase form.  Lookup therefore scans from the right. -/
def colsLowerLookup (cols : List String) (k : String) : Option String :=
  (cols.reverse.map (fun c => (pyLower c, c))).lookup k

/-- `detect_column(df, candidates)` from the script: return the original
name of the first candidate (in priority order) that matches a column
case-insensitively, else `None`. -/
def detect_column (df : DataFrame) (candidates : List String) : Option String :=
  go df.columns candidates
where
  /-- the `for cand in candidates` loop -/
  go (cols : List String) : List String → Option String
    | [] => none
    | cand :: rest =>
      match colsLowerLookup cols (pyLower cand) with
      | some orig => some orig
      | none => go cols rest

namespace Value

/-- Is the cell a number? -/
def isNum : Value → Bool
  | vNum _ => true
  | _ => false

/-- Is the cell a string? -/
def isStr : Value → Bool
  | vStr _ => true
  | _ => false

/-- Numeric payload (0 on non-numbers; only used under an `isNum` guard,
and `toZ vNA = 0` matches pandas treating skipped `NaN` as contributing
nothing to a sum). -/
def toZ : Value → Int
  | vNum q => q
  | _ => 0

/-- String payload (empty on non-strings; only used under an `isStr` guard). -/
def toS : Value → String
  | vStr s => s
  | _ => ""

end Value

/-- pandas summation of a series (`Series.sum` and the per-group sum of
`SeriesGroupBy.sum`), with default `skipna`: missing values are dropped
first; an all-numeric remainder adds numerically (empty sum is 0); an
all-string remainder concatenates (Python `+` on `str`, which is what
pandas does on an object column of strings); any other mix raises
`TypeError`, modelled as `none`. -/
def pdSum (vs : List Value) : Option Value :=
  if (vs.filter (fun v => v != Value.vNA)).all Value.isNum then
    some (Value.vNum (((vs.filter (fun v => v != Value.vNA)).map Value.toZ).sum))
  else if (vs.filter (fun v => v != Value.vNA)).all Value.isStr then
    some (Value.vStr (String.join ((vs.filter (fun v => v != Value.vNA)).map Value.toS)))
  else none

/-- The values of column `c`, row by row (`df[c]`). -/
def colVals (df : DataFrame) (c : String) : List Value :=
  df.rows.map (fun r => r.cell c)

/-- The distinct non-missing keys of a groupby, in ascending order:
pandas `groupby` drops `NaN` keys (default `dropna=True`) and sorts the
groups by key (default `sort=True`). -/
def groupKeys (df : DataFrame) (kcol : String) : List Value :=
  ((colVals df kcol).filter (fun v => v != Value.vNA)).dedup.insertionSort (· ≤ ·)

/-- The `vcol` cells of the rows whose `kcol` cell equals `key`
(one group of `df.groupby(kcol)[vcol]`). -/
def groupVals (df : DataFrame) (kcol : String) (key : Value) (vcol : String) : List Value :=
  (df.rows.filter (fun r => r.cell kcol == key)).map (fun r => r.cell vcol)

/-- Pair every key with the result of `g`, failing as a whole when `g`
fails on any key (an uncaught pandas exception aborts the whole
aggregation). -/
def seqPairs (g : Value → Option Value) : List Value → Option (List (Value × Value))
  | [] => some []
  | k :: t =>
    match g k, seqPairs g t with
    | some v, some rest => some ((k, v) :: rest)
    | _, _ => none

/-- `df.groupby(kcol)[vcol].sum()`: one `(key, sum)` pair per distinct
non-missing key, keys ascending; `none` if any group's sum raises. -/
def groupbySum (df : DataFrame) (kcol vcol : String) : Option (List (Value × Value)) :=
  seqPairs (fun k => pdSum (groupVals df kcol k vcol)) (groupKeys df kcol)

/-- Comparison of series entries by index, for `sort_index()`. -/
def ascKey (a b : Value × Value) : Prop := a.1 ≤ b.1

/-- Comparison of series entries by descending value, for
`sort_values(ascending=False)`.  (pandas' default quicksort leaves the
relative order of tied values unspecified; a stable sort is one
realisation of it, and no property below depends on tie order.) -/
def descVal (a b : Value × Value) : Prop := b.2 ≤ a.2

instance : DecidableRel ascKey := fun a b => inferInstanceAs (Decidable (a.1 ≤ b.1))

instance : DecidableRel descVal := fun a b => inferInstanceAs (Decidable (b.2 ≤ a.2))

instance : IsTotal (Value × Value) ascKey := ⟨fun a b => le_total a.1 b.1⟩

instance : IsTrans (Value × Value) ascKey := ⟨fun _ _ _ h h' => le_trans h h'⟩

instance : IsTotal (Value × Value) descVal := ⟨fun a b => (le_total b.2 a.2).symm.imp id id |>.symm⟩

instance : IsTrans (Value × Value) descVal := ⟨fun _ _ _ h h' => le_trans h' h⟩

/-- The values of a series. -/
def serVals (s : List (Value × Value)) : List Value :=
  s.map Prod.snd

/-- pandas `Series.max`: the largest value; `vNA` (the bottom of our
order) both seeds the fold and is the `NaN` answer on an all-missing
series, so missing values are skipped as with `skipna=True`. -/
def serMax (s : List (Value × Value)) : Value :=
  (serVals s).foldl max Value.vNA

/-- pandas `Series.idxmax`: the index of the first occurrence of the
maximal value (`none` on an empty series, where pandas raises). -/
def serIdxmax (s : List (Value × Value)) : Option Value :=
  (s.find? (fun p => p.2 == serMax s)).map Prod.fst

/-- pandas `Series.sum` over the series' values. -/
def serSum (s : List (Value × Value)) : Option Value :=
  pdSum (serVals s)

-- ---- the script's fixed candidate lists (lines 51-54) ----

/-- Aliases for the Category role. -/
def categoryCandidates : List String := ["Category", "Product Category"]

/-- Aliases for the SalesAmount role. -/
def salesCandidates : List String := ["$ Sales", "Sales ($)", "Sales", "Total Sales"]

/-- Aliases for the OrderDate role. -/
def dateCandidates : List String := ["Date Ordered", "Order Date"]

/-- Aliases for the SatisfactionRating role. -/
def satisfactionCandidates : List String := ["Service Satisfaction Rating", "Satisfaction Rating"]

/-- `category_col = detect_column(df, [...])`. -/
def category_col (df : DataFrame) : Option String := detect_column df categoryCandidates

/-- `sales_col = detect_column(df, [...])`. -/
def sales_col (df : DataFrame) : Option String := detect_column df salesCandidates

/-- `date_col = detect_column(df, [...])`. -/
def date_col (df : DataFrame) : Option String := detect_column df dateCandidates

/-- `satisfaction_col = detect_column(df, [...])`. -/
def satisfaction_col (df : DataFrame) : Option String := detect_column df satisfactionCandidates

-- ---- tab 1 : category sales ----

/-- `category_sales = df.groupby(category_col)[sales_col].sum().sort_values(ascending=False)`. -/
def category_sales (df : DataFrame) (c s : String) : Option (List (Value × Value)) :=
  (groupbySum df c s).map (fun l => l.insertionSort descVal)

/-- `top_category = category_sales.idxmax()`. -/
def top_category (cs : List (Value × Value)) : Option Value :=
  serIdxmax cs

/-- `top_value = category_sales.max()`. -/
def top_value (cs : List (Value × Value)) : Value :=
  serMax cs

/-- `total_sales = category_sales.sum()` followed by
`top_pct = (top_value / total_sales) * 100 if total_sales > 0 else 0`.
The comparison and division are Python numeric operations, which raise
on non-numeric scalars: modelled by requiring both scalars numeric. -/
def top_pct (cs : List (Value × Value)) : Option Rat :=
  match serSum cs, serMax cs with
  | some (Value.vNum t), Value.vNum top =>
    some (if 0 < t then (top : Rat) / (t : Rat) * 100 else 0)
  | _, _ => none

-- ---- tab 2 : sales over time ----

/-- Split a character list at every occurrence of `sep`
(Python `str.split(sep)` on the exploded string). -/
def splitOnChar (sep : Char) : List Char → List (List Char)
  | [] => [[]]
  | c :: cs =>
    match splitOnChar sep cs, decide (c = sep) with
    | r, true => [] :: r
    | [], false => [[c]]
    | g :: gs, false => (c :: g) :: gs

/-- The number denoted by a list of decimal digits. -/
def digitsToNat (cs : List Char) : Nat :=
  cs.foldl (fun acc c => acc * 10 + (c.toNat - 48)) 0

/-- Parse an ISO `YYYY-MM-DD` string into the `y*10000 + m*100 + d`
encoding.  This models the date formats of the dataset; `pd.to_datetime`
accepts more spellings, but every property below only distinguishes
parseable from unparseable values. -/
def parseIsoDate (s : String) : Option Nat :=
  match splitOnChar (Char.ofNat 45) s.data with
  | [y, m, d] =>
    if y.all Char.isDigit ∧ m.all Char.isDigit ∧ d.all Char.isDigit ∧
        y.length = 4 ∧ 1 ≤ m.length ∧ m.length ≤ 2 ∧ 1 ≤ d.length ∧ d.length ≤ 2 then
      let yn := digitsToNat y
      let mn := digitsToNat m
      let dn := digitsToNat d
      if 1 ≤ mn ∧ mn ≤ 12 ∧ 1 ≤ dn ∧ dn ≤ 31 then some (yn * 10000 + mn * 100 + dn)
      else none
    else none
  | _ => none

/-- `pd.to_datetime(v, errors="coerce")` on one cell: a parseable date
string becomes a date, a date stays a date, and everything else
(missing values, malformed strings) coerces to `NaT` (`vNA`). -/
def pdToDatetime (v : Value) : Value :=
  match v with
  | Value.vStr s =>
    match parseIsoDate s with
    | some n => Value.vDate n
    | none => Value.vNA
  | Value.vDate n => Value.vDate n
  | _ => Value.vNA

/-- Overwrite column `c` of a row with `v` (the assignment
`df_time[date_col] = ...` at one row). -/
def Row.set (r : Row) (c : String) (v : Value) : Row :=
  r.map (fun p => if p.1 = c then (c, v) else p)

/-- `df_time`: copy the table, coerce the date column with
`pd.to_datetime(..., errors="coerce")`, then `dropna(subset=[date_col])`. -/
def df_time (df : DataFrame) (dcol : String) : DataFrame :=
  { columns := df.columns
    rows := (df.rows.map (fun r => r.set dcol (pdToDatetime (r.cell dcol)))).filter
      (fun r => r.cell dcol != Value.vNA) }

/-- `daily_sales = df_time.groupby(date_col)[sales_col].sum().sort_index()`. -/
def daily_sales (df : DataFrame) (dcol scol : String) : Option (List (Value × Value)) :=
  (groupbySum (df_time df dcol) dcol scol).map (fun l => l.insertionSort ascKey)

-- ---- tab 3 : satisfaction ratings ----

/-- `ratings = df[satisfaction_col].dropna()`. -/
def ratings (df : DataFrame) (c : String) : List Value :=
  (colVals df c).filter (fun v => v != Value.vNA)

/-- pandas `value_counts()` on a series with no missing values: one
`(value, count)` pair per distinct value.  pandas presents them sorted
by count descending; the script immediately re-sorts by index, so we
take the distinct values in first-appearance order. -/
def value_counts (vs : List Value) : List (Value × Value) :=
  vs.dedup.map (fun k => (k, Value.vNum ((vs.count k : Nat) : Int)))

/-- `rating_counts = ratings.value_counts().sort_index()`. -/
def rating_counts (df : DataFrame) (c : String) : List (Value × Value) :=
  (value_counts (ratings df c)).insertionSort ascKey

/-- `most_common_rating = rating_counts.idxmax()`. -/
def most_common_rating (df : DataFrame) (c : String) : Option Value :=
  serIdxmax (rating_counts df c)

-- ---- the three tab bodies ----

/-- What one tab renders: a chart built from an aggregated series, the
"no data" informational notice (`st.info`), or the "required columns not
found" error (`st.error`). -/
inductive ViewResult where
  | chart : List (Value × Value) → ViewResult
  | noData : ViewResult
  | insufficientColumns : ViewResult
deriving DecidableEq, Repr

/-- Tab 1 (lines 76-119): requires Category and SalesAmount; charts the
grouped sums, `st.info` when the grouped result is empty, `st.error`
when a required column is unresolved.  `none` models the script run
aborting on a pandas `TypeError` from the sum. -/
def categoryTab (df : DataFrame) : Option ViewResult :=
  match category_col df, sales_col df with
  | some c, some s =>
    (category_sales df c s).map (fun cs => if cs = [] then .noData else .chart cs)
  | _, _ => some .insufficientColumns

/-- Tab 2 (lines 125-171): requires OrderDate and SalesAmount. -/
def timeTab (df : DataFrame) : Option ViewResult :=
  match date_col df, sales_col df with
  | some d, some s =>
    (daily_sales df d s).map (fun ds => if ds = [] then .noData else .chart ds)
  | _, _ => some .insufficientColumns

/-- Tab 3 (lines 177-209): requires only SatisfactionRating; counting
never raises, so this tab always renders one of the three outcomes. -/
def ratingsTab (df : DataFrame) : ViewResult :=
  match satisfaction_col df with
  | some c => if ratings df c = [] then .noData else .chart (rating_counts df c)
  | none => .insufficientColumns

-- ---- the scenario tables used in the claims ----

/-- The table of the spec's Scenario 1:
rows (Category="Juice", Sales=100) and (Category="Smoothie", Sales=300). -/
def c2Table : DataFrame :=
  { columns := ["Category", "Sales"]
    rows := [[("Category", Value.vStr "Juice"), ("Sales", Value.vNum 100)],
             [("Category", Value.vStr "Smoothie"), ("Sales", Value.vNum 300)]] }

/-- A table whose sales column holds only strings, one of them not a
number (what `pd.read_csv` yields when any sales cell is non-numeric). -/
def c3StrTable : DataFrame :=
  { columns := ["Category", "Sales"]
    rows := [[("Category", Value.vStr "Juice"), ("Sales", Value.vStr "100")],
             [("Category", Value.vStr "Juice"), ("Sales", Value.vStr "abc")]] }

/-- A table whose sales column mixes a number with a non-numeric string. -/
def c3MixTable : DataFrame :=
  { columns := ["Category", "Sales"]
    rows := [[("Category", Value.vStr "Juice"), ("Sales", Value.vNum 100)],
             [("Category", Value.vStr "Juice"), ("Sales", Value.vStr "abc")]] }

/-- The table of the spec's Scenario 2: dates
["2024-01-01", "2024-01-01", "bad-date"] with sales [10, 20, 5]. -/
def c5Table : DataFrame :=
  { columns := ["Date Ordered", "Sales"]
    rows := [[("Date Ordered", Value.vStr "2024-01-01"), ("Sales", Value.vNum 10)],
             [("Date Ordered", Value.vStr "2024-01-01"), ("Sales", Value.vNum 20)],
             [("Date Ordered", Value.vStr "bad-date"), ("Sales", Value.vNum 5)]] }

/-- A Scenario-2-like table with two distinct dates, deliberately out
of order in the input. -/
def c6Table : DataFrame :=
  { columns := ["Date Ordered", "Sales"]
    rows := [[("Date Ordered", Value.vStr "2024-01-02"), ("Sales", Value.vNum 10)],
             [("Date Ordered", Value.vStr "2024-01-01"), ("Sales", Value.vNum 20)],
             [("Date Ordered", Value.vStr "2024-01-01"), ("Sales", Value.vNum 7)]] }

/-- The table of the spec's Scenario 3: ratings [5, 5, 3, 4, 5]. -/
def c7Table : DataFrame :=
  { columns := ["Satisfaction Rating"]
    rows := [[("Satisfaction Rating", Value.vNum 5)], [("Satisfaction Rating", Value.vNum 5)],
             [("Satisfaction Rating", Value.vNum 3)], [("Satisfaction Rating", Value.vNum 4)],
             [("Satisfaction Rating", Value.vNum 5)]] }

/-- The tied table for C10: ratings [4, 4, 5, 5]. -/
def c10Table : DataFrame :=
  { columns := ["Satisfaction Rating"]
    rows := [[("Satisfaction Rating", Value.vNum 4)], [("Satisfaction Rating", Value.vNum 4)],
             [("Satisfaction Rating", Value.vNum 5)], [("Satisfaction Rating", Value.vNum 5)]] }

/-- Scenario 4's table: no column matches any SalesAmount alias, while
Category and SatisfactionRating columns are present. -/
def c8Table : DataFrame :=
  { columns := ["Category", "Satisfaction Rating"]
    rows := [[("Category", Value.vStr "Juice"), ("Satisfaction Rating", Value.vNum 5)]] }

/-- A table whose required columns all resolve but in which the single
row has a missing category, an unparseable date, and a missing rating,
so each view has zero usable rows. -/
def c9Table : DataFrame :=
  { columns := ["Category", "Sales", "Date Ordered", "Service Satisfaction Rating"]
    rows := [[("Category", Value.vNA), ("Sales", Value.vNum 5),
              ("Date Ordered", Value.vStr "oops"), ("Service Satisfaction Rating", Value.vNA)]] }

-- ---- order facts about cells ----

theorem Value.le_iff_key {a b : Value} : a ≤ b ↔ a.key ≤ b.key := Iff.rfl

theorem Value.vNA_le (v : Value) : Value.vNA ≤ v := by
  rw [Value.le_iff_key]
  cases v
  case vNA => exact le_refl _
  all_goals exact Sum.Lex.inl_le_inr _ _

theorem Value.eq_vNA_of_le {v : Value} (h : v ≤ Value.vNA) : v = Value.vNA :=
  le_antisymm h (Value.vNA_le v)

-- ---- folding max over a list ----

theorem le_foldl_max (l : List Value) (init : Value) :
    init ≤ l.foldl max init ∧ ∀ x ∈ l, x ≤ l.foldl max init := by
  induction l generalizing init with
  | nil => simp
  | cons a t ih =>
    refine ⟨le_trans (le_max_left init a) (ih (max init a)).1, ?_⟩
    intro x hx
    rcases List.mem_cons.mp hx with rfl | hx
    · exact le_trans (le_max_right init x) (ih (max init x)).1
    · exact (ih (max init a)).2 x hx

theorem foldl_max_mem (l : List Value) (init : Value) :
    l.foldl max init = init ∨ l.foldl max init ∈ l := by
  induction l generalizing init with
  | nil => simp
  | cons a t ih =>
    rw [List.foldl_cons]
    rcases ih (max init a) with h | h
    · rcases max_choice init a with h' | h'
      · exact Or.inl (by rw [h, h'])
      · exact Or.inr (by rw [h, h']; exact List.mem_cons_self a t)
    · exact Or.inr (List.mem_cons_of_mem a h)

-- ---- facts about serMax / serIdxmax ----

theorem le_serMax {s : List (Value × Value)} {p : Value × Value} (hp : p ∈ s) :
    p.2 ≤ serMax s :=
  (le_foldl_max (serVals s) Value.vNA).2 p.2 (List.mem_map_of_mem Prod.snd hp)

theorem serMax_mem_or (s : List (Value × Value)) :
    serMax s = Value.vNA ∨ serMax s ∈ serVals s :=
  foldl_max_mem (serVals s) Value.vNA

theorem serIdxmax_isSome {s : List (Value × Value)} (h : s ≠ []) :
    ∃ k, serIdxmax s = some k := by
  have hex : ∃ p ∈ s, (p.2 == serMax s) = true := by
    rcases serMax_mem_or s with hna | hmem
    · rcases List.exists_mem_of_ne_nil s h with ⟨p, hp⟩
      refine ⟨p, hp, ?_⟩
      have hle : p.2 ≤ serMax s := le_serMax hp
      rw [hna] at hle ⊢
      simp [Value.eq_vNA_of_le hle]
    · rcases List.mem_map.mp hmem with ⟨p, hp, hpv⟩
      exact ⟨p, hp, by simp [hpv]⟩
  have h2 : (s.find? (fun p => p.2 == serMax s)).isSome = true :=
    List.find?_isSome.mpr hex
  rcases Option.isSome_iff_exists.mp h2 with ⟨p, hp⟩
  exact ⟨p.1, by simp [serIdxmax, hp]⟩

theorem serIdxmax_mem {s : List (Value × Value)} {k : Value} (h : serIdxmax s = some k) :
    (k, serMax s) ∈ s := by
  rcases Option.map_eq_some'.mp h with ⟨p, hfind, hk⟩
  have hmem := List.mem_of_find?_eq_some hfind
  have hval := List.find?_some hfind
  have hb : p.2 = serMax s := by simpa using hval
  have hkp : (k, serMax s) = p := by
    rcases p with ⟨a, b⟩
    simp only [Prod.mk.injEq]
    exact ⟨hk.symm, hb.symm⟩
  rwa [hkp]

/-- On a series whose keys are strictly increasing, `find?` (hence
`idxmax`) returns the entry with the least key among those matching. -/
theorem find?_fst_le {m : Value} {s : List (Value × Value)} {q : Value × Value}
    (hp : s.Pairwise (fun a b => a.1 < b.1))
    (h : s.find? (fun p => p.2 == m) = some q) :
    ∀ p ∈ s, p.2 = m → q.1 ≤ p.1 := by
  induction s with
  | nil => simp at h
  | cons a t ih =>
    rw [List.find?_cons] at h
    cases hpc : (a.2 == m) with
    | false =>
      simp only [hpc] at h
      intro p hmem hpm
      rcases List.mem_cons.mp hmem with rfl | hmem
      · simp [hpm] at hpc
      · exact ih (List.Pairwise.of_cons hp) h p hmem hpm
    | true =>
      simp only [hpc] at h
      injection h with h
      subst h
      intro p hmem hpm
      rcases List.mem_cons.mp hmem with rfl | hmem
      · exact le_refl _
      · exact le_of_lt ((List.pairwise_cons.mp hp).1 p hmem)

theorem serIdxmax_first {s : List (Value × Value)} {k : Value}
    (hp : s.Pairwise (fun a b => a.1 < b.1)) (h : serIdxmax s = some k) :
    ∀ p ∈ s, p.2 = serMax s → k ≤ p.1 := by
  rcases Option.map_eq_some'.mp h with ⟨q, hfind, hk⟩
  subst hk
  exact find?_fst_le hp hfind

-- ---- facts about pdSum ----

theorem sum_toZ_filter (vs : List Value) :
    ((vs.filter (fun v => v != Value.vNA)).map Value.toZ).sum = (vs.map Value.toZ).sum := by
  induction vs with
  | nil => rfl
  | cons v t ih =>
    by_cases hv : v = Value.vNA
    · subst hv
      simp [List.filter_cons, Value.toZ, ih]
    · simp [List.filter_cons, hv, ih]

theorem pdSum_eq_num {vs : List Value} {t : Int} (h : pdSum vs = some (Value.vNum t)) :
    t = (vs.map Value.toZ).sum := by
  unfold pdSum at h
  split_ifs at h
  · rw [← sum_toZ_filter]
    exact (by simpa using h : _ = t).symm
  · simp at h

theorem pdSum_of_numOrNA {vs : List Value} (h : ∀ v ∈ vs, v.isNum ∨ v = Value.vNA) :
    pdSum vs = some (Value.vNum ((vs.map Value.toZ).sum)) := by
  have hall : (vs.filter (fun v => v != Value.vNA)).all Value.isNum = true := by
    rw [List.all_eq_true]
    intro v hv
    rcases List.mem_filter.mp hv with ⟨hmem, hne⟩
    rcases h v hmem with hnum | hna
    · exact hnum
    · simp [hna] at hne
  unfold pdSum
  rw [if_pos hall, sum_toZ_filter]

-- ---- facts about seqPairs ----

theorem seqPairs_eq_some {g : Value → Option Value} :
    ∀ {keys : List Value} {out : List (Value × Value)},
      seqPairs g keys = some out →
      out.map Prod.fst = keys ∧ ∀ p ∈ out, g p.1 = some p.2 := by
  intro keys
  induction keys with
  | nil =>
    intro out h
    simp only [seqPairs, Option.some.injEq] at h
    subst h
    simp
  | cons k t ih =>
    intro out h
    unfold seqPairs at h
    cases hg : g k with
    | none => rw [hg] at h; simp at h
    | some v =>
      rw [hg] at h
      cases hrest : seqPairs g t with
      | none => rw [hrest] at h; simp at h
      | some rest =>
        rw [hrest] at h
        simp only [Option.some.injEq] at h
        subst h
        rcases ih hrest with ⟨hfst, hvals⟩
        refine ⟨by simp [hfst], ?_⟩
        intro q hq
        rcases List.mem_cons.mp hq with rfl | hq
        · simpa using hg
        · exact hvals q hq

theorem seqPairs_isSome {g : Value → Option Value} :
    ∀ {keys : List Value}, (∀ k ∈ keys, (g k).isSome) →
      (seqPairs g keys).isSome := by
  intro keys
  induction keys with
  | nil => intro _; simp [seqPairs]
  | cons k t ih =>
    intro h
    rcases Option.isSome_iff_exists.mp (h k (List.mem_cons_self k t)) with ⟨v, hv⟩
    rcases Option.isSome_iff_exists.mp (ih fun a ha => h a (List.mem_cons_of_mem k ha)) with
      ⟨rest, hrest⟩
    simp [seqPairs, hv, hrest]

-- ---- facts about groupKeys and groupbySum ----

theorem groupKeys_sorted (df : DataFrame) (kcol : String) :
    (groupKeys df kcol).Sorted (· ≤ ·) :=
  List.sorted_insertionSort _ _

theorem groupKeys_nodup (df : DataFrame) (kcol : String) :
    (groupKeys df kcol).Nodup :=
  (List.perm_insertionSort _ _).symm.nodup
    (List.nodup_dedup ((colVals df kcol).filter (fun v => v != Value.vNA)))

theorem groupKeys_strictSorted (df : DataFrame) (kcol : String) :
    (groupKeys df kcol).Sorted (· < ·) :=
  (groupKeys_sorted df kcol).lt_of_le (groupKeys_nodup df kcol)

theorem mem_groupKeys {df : DataFrame} {kcol : String} {x : Value} :
    x ∈ groupKeys df kcol ↔ x ≠ Value.vNA ∧ x ∈ colVals df kcol := by
  unfold groupKeys
  rw [(List.perm_insertionSort _ _).mem_iff, List.mem_dedup, List.mem_filter]
  simp [and_comm]

theorem groupbySum_eq_some {df : DataFrame} {kcol vcol : String}
    {out : List (Value × Value)} (h : groupbySum df kcol vcol = some out) :
    out.map Prod.fst = groupKeys df kcol ∧
      ∀ p ∈ out, pdSum (groupVals df kcol p.1 vcol) = some p.2 :=
  seqPairs_eq_some h

theorem groupbySum_isSome {df : DataFrame} {kcol vcol : String}
    (h : ∀ k ∈ groupKeys df kcol, (pdSum (groupVals df kcol k vcol)).isSome) :
    (groupbySum df kcol vcol).isSome :=
  seqPairs_isSome h

-- ---- strict key ordering of sorted series ----

theorem pairwise_lt_of_sorted_ascKey {l : List (Value × Value)}
    (hs : l.Sorted ascKey) (hn : (l.map Prod.fst).Nodup) :
    l.Pairwise (fun a b => a.1 < b.1) := by
  have hne : l.Pairwise (fun a b => a.1 ≠ b.1) := List.pairwise_map.mp hn
  exact (hs.and hne).imp (fun h => lt_of_le_of_ne h.1 h.2)

-- ---- facts about the case-insensitive column lookup ----

theorem lookup_lower_some {l : List String} {k orig : String}
    (h : (l.map (fun c => (pyLower c, c))).lookup k = some orig) :
    orig ∈ l ∧ pyLower orig = k := by
  induction l with
  | nil => simp at h
  | cons c t ih =>
    rw [List.map_cons, List.lookup_cons] at h
    cases hk : (k == pyLower c) with
    | true =>
      simp only [hk] at h
      injection h with h
      subst h
      exact ⟨List.mem_cons_self _ _, (eq_of_beq hk).symm⟩
    | false =>
      simp only [hk] at h
      rcases ih h with ⟨hmem, hl⟩
      exact ⟨List.mem_cons_of_mem _ hmem, hl⟩

theorem lookup_lower_none_iff {l : List String} {k : String} :
    (l.map (fun c => (pyLower c, c))).lookup k = none ↔ ∀ c ∈ l, pyLower c ≠ k := by
  induction l with
  | nil => simp
  | cons c t ih =>
    rw [List.map_cons, List.lookup_cons]
    cases hk : (k == pyLower c) with
    | true =>
      simp only [hk]
      constructor
      · intro h; cases h
      · intro h
        exact absurd (eq_of_beq hk).symm (h c (List.mem_cons_self _ _))
    | false =>
      simp only [hk]
      rw [ih]
      constructor
      · intro h c' hc'
        rcases List.mem_cons.mp hc' with rfl | hc'
        · intro heq
          rw [heq] at hk
          simp at hk
        · exact h c' hc'
      · intro h c' hc'
        exact h c' (List.mem_cons_of_mem _ hc')

theorem colsLowerLookup_some {cols : List String} {k orig : String}
    (h : colsLowerLookup cols k = some orig) : orig ∈ cols ∧ pyLower orig = k := by
  unfold colsLowerLookup at h
  rcases lookup_lower_some h with ⟨hmem, hl⟩
  exact ⟨List.mem_reverse.mp hmem, hl⟩

theorem colsLowerLookup_none_iff {cols : List String} {k : String} :
    colsLowerLookup cols k = none ↔ ∀ c ∈ cols, pyLower c ≠ k := by
  unfold colsLowerLookup
  rw [lookup_lower_none_iff]
  constructor
  · intro h c hc
    exact h c (List.mem_reverse.mpr hc)
  · intro h c hc
    exact h c (List.mem_reverse.mp hc)

theorem detect_go_none_iff {cols cands : List String} :
    detect_column.go cols cands = none ↔
      ∀ cand ∈ cands, ∀ col ∈ cols, pyLower cand ≠ pyLower col := by
  induction cands with
  | nil => simp [detect_column.go]
  | cons cand t ih =>
    unfold detect_column.go
    cases hl : colsLowerLookup cols (pyLower cand) with
    | some orig =>
      simp only [hl]
      constructor
      · intro h; cases h
      · intro h
        rcases colsLowerLookup_some hl with ⟨hmem, hlow⟩
        exact absurd hlow.symm (h cand (List.mem_cons_self _ _) orig hmem)
    | none =>
      simp only [hl]
      rw [ih]
      have hnone := colsLowerLookup_none_iff.mp hl
      constructor
      · intro h c hc col hcol
        rcases List.mem_cons.mp hc with rfl | hc
        · exact fun he => hnone col hcol he.symm
        · exact h c hc col hcol
      · intro h c hc col hcol
        exact h c (List.mem_cons_of_mem _ hc) col hcol

theorem detect_go_some {cols cands : List String} {col : String}
    (h : detect_column.go cols cands = some col) :
    col ∈ cols ∧
      ∃ pre cand post, cands = pre ++ cand :: post ∧ pyLower cand = pyLower col ∧
        ∀ c2 ∈ pre, ∀ col2 ∈ cols, pyLower c2 ≠ pyLower col2 := by
  induction cands with
  | nil => simp [detect_column.go] at h
  | cons cand t ih =>
    unfold detect_column.go at h
    cases hl : colsLowerLookup cols (pyLower cand) with
    | some orig =>
      rw [hl] at h
      injection h with h
      subst h
      rcases colsLowerLookup_some hl with ⟨hmem, hlow⟩
      exact ⟨hmem, [], cand, t, rfl, hlow.symm, by simp⟩
    | none =>
      rw [hl] at h
      rcases ih h with ⟨hmem, pre, cand', post, hsplit, hlow, hpre⟩
      refine ⟨hmem, cand :: pre, cand', post, by rw [hsplit]; rfl, hlow, ?_⟩
      intro c2 hc2 col2 hcol2
      rcases List.mem_cons.mp hc2 with rfl | hc2
      · exact fun he => colsLowerLookup_none_iff.mp hl col2 hcol2 he.symm
      · exact hpre c2 hc2 col2 hcol2

-- =====================================================================
-- Claim theorems
-- =====================================================================

/-- C1.  Column resolution for each of the four roles (with exactly the
spec's alias lists) returns, for the first alias in declared priority
order having a case-insensitive match among the table's columns, the
matching column, and `None` exactly when no alias matches any column;
in particular a column named "CATEGORY" resolves the Category role. -/
theorem detect_column_first_alias_case_insensitive :
    (categoryCandidates = ["Category", "Product Category"] ∧
      salesCandidates = ["$ Sales", "Sales ($)", "Sales", "Total Sales"] ∧
      dateCandidates = ["Date Ordered", "Order Date"] ∧
      satisfactionCandidates = ["Service Satisfaction Rating", "Satisfaction Rating"]) ∧
    (∀ (df : DataFrame) (cands : List String),
      (detect_column df cands = none ↔
        ∀ cand ∈ cands, ∀ col ∈ df.columns, pyLower cand ≠ pyLower col) ∧
      (∀ col, detect_column df cands = some col →
        col ∈ df.columns ∧
          ∃ pre cand post, cands = pre ++ cand :: post ∧ pyLower cand = pyLower col ∧
            ∀ c2 ∈ pre, ∀ col2 ∈ df.columns, pyLower c2 ≠ pyLower col2)) ∧
    detect_column { columns := ["CATEGORY"], rows := [] } categoryCandidates = some "CATEGORY" := by
  refine ⟨⟨rfl, rfl, rfl, rfl⟩, ?_, by decide⟩
  intro df cands
  exact ⟨detect_go_none_iff, fun col h => detect_go_some h⟩

/-- Witness for C1: the table whose only column is "CATEGORY", resolved
through the Category alias list. -/
theorem detect_column_first_alias_case_insensitive_witness :
    "CATEGORY" ∈ (DataFrame.mk ["CATEGORY"] []).columns ∧
      ∃ pre cand post,
        categoryCandidates = pre ++ cand :: post ∧ pyLower cand = pyLower "CATEGORY" ∧
          ∀ c2 ∈ pre, ∀ col2 ∈ (DataFrame.mk ["CATEGORY"] []).columns,
            pyLower c2 ≠ pyLower col2 :=
  (detect_column_first_alias_case_insensitive.2.1
    (DataFrame.mk ["CATEGORY"] []) categoryCandidates).2 "CATEGORY" (by decide)


/-- C2.  With Category and SalesAmount resolved, the category aggregator
returns one `(category, summed sales)` pair per distinct non-missing
category, sorted descending by total, the top category being a group of
maximal total; on Scenario 1 it yields {Smoothie: 300, Juice: 100}, top
category "Smoothie", top share 75%. -/
theorem category_sales_groups_sums_sorts :
    (category_col c2Table = some "Category" ∧ sales_col c2Table = some "Sales" ∧
      category_sales c2Table "Category" "Sales" =
        some [(Value.vStr "Smoothie", Value.vNum 300), (Value.vStr "Juice", Value.vNum 100)] ∧
      top_category [(Value.vStr "Smoothie", Value.vNum 300), (Value.vStr "Juice", Value.vNum 100)] =
        some (Value.vStr "Smoothie") ∧
      top_pct [(Value.vStr "Smoothie", Value.vNum 300), (Value.vStr "Juice", Value.vNum 100)] =
        some 75) ∧
    ∀ (df : DataFrame) (c s : String) (out : List (Value × Value)),
      category_sales df c s = some out →
        out.Sorted descVal ∧
        (∀ k, k ∈ out.map Prod.fst ↔ k ≠ Value.vNA ∧ k ∈ colVals df c) ∧
        (∀ p ∈ out, pdSum (groupVals df c p.1 s) = some p.2) ∧
        (out ≠ [] → ∃ k, top_category out = some k ∧ (k, serMax out) ∈ out ∧
          ∀ p ∈ out, p.2 ≤ serMax out) := by
  constructor
  · refine ⟨by decide, by decide, by decide, by decide, ?_⟩
    have h1 : serSum [(Value.vStr "Smoothie", Value.vNum 300), (Value.vStr "Juice", Value.vNum 100)] =
        some (Value.vNum 400) := by decide
    have h2 : serMax [(Value.vStr "Smoothie", Value.vNum 300), (Value.vStr "Juice", Value.vNum 100)] =
        Value.vNum 300 := by decide
    simp only [top_pct, h1, h2]
    norm_num
  · intro df c s out h
    rcases Option.map_eq_some'.mp h with ⟨out0, hgb, hsort⟩
    subst hsort
    have hperm := List.perm_insertionSort descVal out0
    rcases groupbySum_eq_some hgb with ⟨hkeys, hsums⟩
    refine ⟨List.sorted_insertionSort descVal out0, ?_, ?_, ?_⟩
    · intro k
      rw [(hperm.map Prod.fst).mem_iff, hkeys, mem_groupKeys]
    · intro p hp
      exact hsums p (hperm.mem_iff.mp hp)
    · intro hne
      rcases serIdxmax_isSome hne with ⟨k, hk⟩
      exact ⟨k, hk, serIdxmax_mem hk, fun p hp => le_serMax hp⟩

/-- Witness for C2: the general properties evaluated on Scenario 1's
aggregated series. -/
theorem category_sales_groups_sums_sorts_witness :
    ([(Value.vStr "Smoothie", Value.vNum 300),
        (Value.vStr "Juice", Value.vNum 100)].Sorted descVal ∧
      (∀ k, k ∈ [(Value.vStr "Smoothie", Value.vNum 300),
          (Value.vStr "Juice", Value.vNum 100)].map Prod.fst ↔
        k ≠ Value.vNA ∧ k ∈ colVals c2Table "Category") ∧
      (∀ p ∈ [(Value.vStr "Smoothie", Value.vNum 300), (Value.vStr "Juice", Value.vNum 100)],
        pdSum (groupVals c2Table "Category" p.1 "Sales") = some p.2) ∧
      ([(Value.vStr "Smoothie", Value.vNum 300), (Value.vStr "Juice", Value.vNum 100)] ≠
          ([] : List (Value × Value)) →
        ∃ k, top_category [(Value.vStr "Smoothie", Value.vNum 300),
            (Value.vStr "Juice", Value.vNum 100)] = some k ∧
          (k, serMax [(Value.vStr "Smoothie", Value.vNum 300),
            (Value.vStr "Juice", Value.vNum 100)]) ∈
            [(Value.vStr "Smoothie", Value.vNum 300), (Value.vStr "Juice", Value.vNum 100)] ∧
          ∀ p ∈ [(Value.vStr "Smoothie", Value.vNum 300), (Value.vStr "Juice", Value.vNum 100)],
            p.2 ≤ serMax [(Value.vStr "Smoothie", Value.vNum 300),
              (Value.vStr "Juice", Value.vNum 100)])) :=
  category_sales_groups_sums_sorts.2 c2Table "Category" "Sales"
    [(Value.vStr "Smoothie", Value.vNum 300), (Value.vStr "Juice", Value.vNum 100)] (by decide)

theorem mem_groupVals {df : DataFrame} {kcol vcol : String} {key v : Value}
    (h : v ∈ groupVals df kcol key vcol) : ∃ r ∈ df.rows, v = r.cell vcol := by
  rcases List.mem_map.mp h with ⟨r, hr, hv⟩
  exact ⟨r, (List.mem_filter.mp hr).1, hv.symm⟩



/-- C3 counterexample.  Both roles resolve, yet the row with sales
"abc" is not excluded: with an all-string sales column the Juice group
"sum" is the concatenation "100abc" (not 100), and with mixed
numeric/string sales the whole aggregation raises (`none`), so a
non-numeric sales row can abort the category aggregation. -/
theorem category_sum_includes_nonnumeric_counterexample :
    category_col c3StrTable = some "Category" ∧ sales_col c3StrTable = some "Sales" ∧
      category_sales c3StrTable "Category" "Sales" =
        some [(Value.vStr "Juice", Value.vStr "100abc")] ∧
      category_sales c3StrTable "Category" "Sales" ≠
        some [(Value.vStr "Juice", Value.vNum 100)] ∧
      category_col c3MixTable = some "Category" ∧ sales_col c3MixTable = some "Sales" ∧
      category_sales c3MixTable "Category" "Sales" = none := by
  decide

/-- C3 amended.  Rows whose sales value is missing (`NaN`) are excluded
from the category sums and never make the aggregation fail: when every
sales cell is numeric or missing, the aggregation succeeds and each
group total is the sum of the group's numeric sales (missing cells
contributing nothing).  Rows with non-numeric sales, by contrast, are
not excluded (see the counterexample). -/
theorem category_sum_skips_missing_sales :
    ∀ (df : DataFrame) (c s : String),
      (∀ r ∈ df.rows, (r.cell s).isNum ∨ r.cell s = Value.vNA) →
      ∃ out, category_sales df c s = some out ∧
        ∀ p ∈ out, p.2 = Value.vNum ((groupVals df c p.1 s).map Value.toZ).sum := by
  intro df c s h
  have hnum : ∀ k ∈ groupKeys df c, (pdSum (groupVals df c k s)).isSome := by
    intro k _
    rw [pdSum_of_numOrNA]
    · rfl
    · intro v hv
      rcases mem_groupVals hv with ⟨r, hr, rfl⟩
      exact h r hr
  rcases Option.isSome_iff_exists.mp (groupbySum_isSome hnum) with ⟨out0, hgb⟩
  refine ⟨(out0.insertionSort descVal), by simp [category_sales, hgb], ?_⟩
  intro p hp
  have hp0 : p ∈ out0 := (List.perm_insertionSort descVal out0).mem_iff.mp hp
  have hsum := (groupbySum_eq_some hgb).2 p hp0
  have hval : ∀ v ∈ groupVals df c p.1 s, v.isNum ∨ v = Value.vNA := by
    intro v hv
    rcases mem_groupVals hv with ⟨r, hr, rfl⟩
    exact h r hr
  rw [pdSum_of_numOrNA hval] at hsum
  exact (Option.some.injEq _ _ ▸ hsum).symm

/-- Witness for C3's amended claim: a Juice row with sales 100 and a
Juice row with missing sales sum to 100. -/
theorem category_sum_skips_missing_sales_witness :
    ∃ out,
      category_sales
        (DataFrame.mk ["Category", "Sales"]
          [[("Category", Value.vStr "Juice"), ("Sales", Value.vNum 100)],
           [("Category", Value.vStr "Juice"), ("Sales", Value.vNA)]]) "Category" "Sales" =
        some out ∧
      ∀ p ∈ out,
        p.2 = Value.vNum
          ((groupVals
            (DataFrame.mk ["Category", "Sales"]
              [[("Category", Value.vStr "Juice"), ("Sales", Value.vNum 100)],
               [("Category", Value.vStr "Juice"), ("Sales", Value.vNA)]]) "Category" p.1
            "Sales").map Value.toZ).sum :=
  category_sum_skips_missing_sales
    (DataFrame.mk ["Category", "Sales"]
      [[("Category", Value.vStr "Juice"), ("Sales", Value.vNum 100)],
       [("Category", Value.vStr "Juice"), ("Sales", Value.vNA)]]) "Category" "Sales" (by decide)

theorem sum_snd_cast (cs : List (Value × Value)) :
    (cs.map (fun p => (p.2.toZ : Rat))).sum = (((cs.map (fun p => p.2.toZ)).sum : Int) : Rat) := by
  induction cs with
  | nil => simp
  | cons a t ih => simp [ih]

theorem shares_sum_eq_100 {cs : List (Value × Value)} {t : Int} (ht : (0 : Int) < t)
    (hsum : (cs.map (fun p => p.2.toZ)).sum = t) :
    (cs.map (fun p => (p.2.toZ : Rat) / (t : Rat) * 100)).sum = 100 := by
  have htQ : ((t : Int) : Rat) ≠ 0 := by
    exact_mod_cast ht.ne'
  have hmap : (cs.map (fun p => (p.2.toZ : Rat) / (t : Rat) * 100)) =
      cs.map (fun p => (p.2.toZ : Rat) * ((t : Rat)⁻¹ * 100)) := by
    simp [div_eq_mul_inv, mul_assoc]
  rw [hmap, List.sum_map_mul_right]
  have hcast : (cs.map (fun p => (p.2.toZ : Rat))).sum = (t : Rat) := by
    rw [sum_snd_cast, hsum]
  rw [hcast, ← mul_assoc, mul_inv_cancel₀ htQ, one_mul]

/-- C4.  The top share is total-guarded: when the series sums to a
positive total it equals top total / overall total × 100 (and then the
individual shares over all groups sum to exactly 100%), and when the
total is 0 the share is 0 — the dividing branch is only ever taken with
a strictly positive (hence non-zero) divisor. -/
theorem top_pct_guarded_shares :
    ∀ (cs : List (Value × Value)) (t top : Int),
      serSum cs = some (Value.vNum t) → serMax cs = Value.vNum top →
      (0 < t →
        top_pct cs = some ((top : Rat) / (t : Rat) * 100) ∧
        (cs.map (fun p => (p.2.toZ : Rat) / (t : Rat) * 100)).sum = 100) ∧
      (t = 0 → top_pct cs = some 0) := by
  intro cs t top hsum hmax
  constructor
  · intro ht
    constructor
    · simp only [top_pct, hsum, hmax]
      rw [if_pos ht]
    · have hts : (cs.map (fun p => p.2.toZ)).sum = t := by
        have := pdSum_eq_num hsum
        rw [this, serVals, List.map_map]
        rfl
      exact shares_sum_eq_100 ht hts
  · intro ht
    subst ht
    simp only [top_pct, hsum, hmax]
    rw [if_neg (by exact lt_irrefl 0)]

/-- Witness for C4: Scenario 1's series, with total 400 and top 300. -/
theorem top_pct_guarded_shares_witness :
    top_pct [(Value.vStr "Smoothie", Value.vNum 300), (Value.vStr "Juice", Value.vNum 100)] =
        some (((300 : Int) : Rat) / ((400 : Int) : Rat) * 100) ∧
      ([(Value.vStr "Smoothie", Value.vNum 300),
          (Value.vStr "Juice", Value.vNum 100)].map
        (fun p => (p.2.toZ : Rat) / ((400 : Int) : Rat) * 100)).sum = 100 :=
  (top_pct_guarded_shares
    [(Value.vStr "Smoothie", Value.vNum 300), (Value.vStr "Juice", Value.vNum 100)]
    400 300 (by decide) (by decide)).1 (by decide)

-- ---- facts about rows and the date-coercion pipeline ----

theorem Row.cell_eq_vNA_of_lookup_none {r : Row} {c : String} (h : r.lookup c = none) :
    r.cell c = Value.vNA := by
  simp [Row.cell, h]

theorem Row.lookup_set_self (r : Row) (c : String) (v : Value) :
    (r.set c v).lookup c = (r.lookup c).map (fun _ => v) := by
  induction r with
  | nil => rfl
  | cons p t ih =>
    rcases p with ⟨k, w⟩
    simp only [Row.set, List.map_cons] at ih ⊢
    dsimp only
    by_cases hk : k = c
    · subst hk
      rw [if_pos rfl, List.lookup_cons, List.lookup_cons]
      simp
    · have hck : (c == k) = false := by rw [beq_eq_false_iff_ne]; exact Ne.symm hk
      rw [if_neg hk, List.lookup_cons, List.lookup_cons]
      simp only [hck]
      exact ih

theorem Row.cell_set_self (r : Row) (c : String) (v : Value) :
    (r.set c v).cell c = if (r.lookup c).isSome then v else Value.vNA := by
  cases h : r.lookup c with
  | none => simp [Row.cell, Row.lookup_set_self, h]
  | some w => simp [Row.cell, Row.lookup_set_self, h]

theorem Row.cell_set_ne {r : Row} {c c' : String} {v : Value} (h : c' ≠ c) :
    (r.set c v).cell c' = r.cell c' := by
  induction r with
  | nil => rfl
  | cons p t ih =>
    rcases p with ⟨k, w⟩
    simp only [Row.set, Row.cell, List.map_cons] at ih ⊢
    dsimp only
    by_cases hk : k = c
    · subst hk
      rw [if_pos rfl, List.lookup_cons, List.lookup_cons]
      have hck : (c' == k) = false := by rw [beq_eq_false_iff_ne]; exact h
      simp only [hck]
      exact ih
    · rw [if_neg hk, List.lookup_cons, List.lookup_cons]
      cases hck : (c' == k) with
      | false => simp only [hck]; exact ih
      | true => simp only [hck]

/-- The date cell of a coerced row: coercion of the original date cell,
also when the row had no entry for the date column. -/
theorem cell_set_toDatetime (r : Row) (dcol : String) :
    (r.set dcol (pdToDatetime (r.cell dcol))).cell dcol = pdToDatetime (r.cell dcol) := by
  rw [Row.cell_set_self]
  cases h : r.lookup dcol with
  | none => simp [Row.cell_eq_vNA_of_lookup_none h, pdToDatetime]
  | some w => simp

/-- C5's row-level skip, as an invariance: removing the rows whose date
cell fails to coerce does not change `df_time`. -/
theorem df_time_drop_unparseable (df : DataFrame) (dcol : String) :
    df_time (DataFrame.mk df.columns
        (df.rows.filter (fun r => pdToDatetime (r.cell dcol) != Value.vNA))) dcol =
      df_time df dcol := by
  unfold df_time
  simp only [DataFrame.mk.injEq, true_and]
  rw [List.filter_map, List.filter_map]
  have hpt : ∀ r : Row,
      ((fun r : Row => r.cell dcol != Value.vNA) ∘
        (fun r : Row => r.set dcol (pdToDatetime (r.cell dcol)))) r =
      (fun r : Row => pdToDatetime (r.cell dcol) != Value.vNA) r := by
    intro r
    simp only [Function.comp_apply, cell_set_toDatetime]
  rw [List.filter_congr (fun r _ => hpt r), List.filter_congr (fun r _ => hpt r),
    List.filter_filter]
  congr 1
  apply List.filter_congr
  intro r _
  exact Bool.and_self _

theorem daily_sales_drop_unparseable (df : DataFrame) (dcol scol : String) :
    daily_sales (DataFrame.mk df.columns
        (df.rows.filter (fun r => pdToDatetime (r.cell dcol) != Value.vNA))) dcol scol =
      daily_sales df dcol scol := by
  unfold daily_sales groupbySum groupKeys groupVals colVals
  rw [df_time_drop_unparseable]

/-- Every coerced date cell is a calendar date or missing. -/
theorem pdToDatetime_date_or_na (v : Value) :
    (∃ n, pdToDatetime v = Value.vDate n) ∨ pdToDatetime v = Value.vNA := by
  cases v with
  | vStr s =>
    cases h : parseIsoDate s with
    | none => exact Or.inr (by simp [pdToDatetime, h])
    | some n => exact Or.inl ⟨n, by simp [pdToDatetime, h]⟩
  | vDate n => exact Or.inl ⟨n, rfl⟩
  | vNum q => exact Or.inr rfl
  | vNA => exact Or.inr rfl

/-- Rows surviving `df_time` are coerced copies of original rows. -/
theorem mem_df_time_rows {df : DataFrame} {dcol : String} {r' : Row}
    (h : r' ∈ (df_time df dcol).rows) :
    ∃ r ∈ df.rows, r' = r.set dcol (pdToDatetime (r.cell dcol)) := by
  unfold df_time at h
  rcases List.mem_filter.mp h with ⟨hmem, _⟩
  rcases List.mem_map.mp hmem with ⟨r, hr, hr'⟩
  exact ⟨r, hr, hr'.symm⟩

/-- If every sales cell of the table is numeric or missing and the sales
column is distinct from the date column, the time-series aggregation
cannot fail. -/
theorem daily_sales_isSome {df : DataFrame} {dcol scol : String} (hne : dcol ≠ scol)
    (h : ∀ r ∈ df.rows, (r.cell scol).isNum ∨ r.cell scol = Value.vNA) :
    (daily_sales df dcol scol).isSome := by
  unfold daily_sales
  rw [Option.isSome_map']
  apply groupbySum_isSome
  intro k _
  rw [pdSum_of_numOrNA]
  · rfl
  · intro v hv
    rcases mem_groupVals hv with ⟨r', hr', rfl⟩
    rcases mem_df_time_rows hr' with ⟨r, hr, rfl⟩
    rw [Row.cell_set_ne (Ne.symm hne)]
    exact h r hr


/-- C5.  The time-series aggregator coerces dates and drops exactly the
rows whose date fails to parse, as a row-level skip: removing those rows
beforehand changes nothing, every output key is a calendar date, and
unparseable dates never make the aggregation fail (for any sales column
distinct from the date column whose cells are numeric or missing).  On
Scenario 2 the daily total for 2024-01-01 is 30, the malformed row is
dropped, and the peak date is 2024-01-01. -/
theorem time_series_drops_unparseable_dates :
    (date_col c5Table = some "Date Ordered" ∧ sales_col c5Table = some "Sales" ∧
      daily_sales c5Table "Date Ordered" "Sales" =
        some [(Value.vDate 20240101, Value.vNum 30)] ∧
      serIdxmax [(Value.vDate 20240101, Value.vNum 30)] = some (Value.vDate 20240101)) ∧
    (∀ (df : DataFrame) (dcol scol : String),
      daily_sales (DataFrame.mk df.columns
          (df.rows.filter (fun r => pdToDatetime (r.cell dcol) != Value.vNA))) dcol scol =
        daily_sales df dcol scol) ∧
    (∀ (df : DataFrame) (dcol scol : String) (out : List (Value × Value)),
      daily_sales df dcol scol = some out → ∀ p ∈ out, ∃ n, p.1 = Value.vDate n) ∧
    (∀ (df : DataFrame) (dcol scol : String), dcol ≠ scol →
      (∀ r ∈ df.rows, (r.cell scol).isNum ∨ r.cell scol = Value.vNA) →
      (daily_sales df dcol scol).isSome) := by
  refine ⟨⟨by decide, by decide, by decide, by decide⟩,
    daily_sales_drop_unparseable, ?_, fun df dcol scol => daily_sales_isSome⟩
  intro df dcol scol out h p hp
  rcases Option.map_eq_some'.mp h with ⟨out0, hgb, hsort⟩
  subst hsort
  have hp0 : p ∈ out0 := (List.perm_insertionSort ascKey out0).mem_iff.mp hp
  have hkey : p.1 ∈ groupKeys (df_time df dcol) dcol := by
    rw [← (groupbySum_eq_some hgb).1]
    exact List.mem_map_of_mem Prod.fst hp0
  rcases mem_groupKeys.mp hkey with ⟨hne, hmem⟩
  rcases List.mem_map.mp hmem with ⟨r', hr', hcell⟩
  rcases mem_df_time_rows hr' with ⟨r, _, rfl⟩
  rw [cell_set_toDatetime] at hcell
  rcases pdToDatetime_date_or_na (r.cell dcol) with ⟨n, hn⟩ | hna
  · exact ⟨n, by rw [← hcell, hn]⟩
  · exact absurd (hcell.symm.trans hna) hne

/-- Witness for C5: Scenario 2's table, whose sales column is numeric
and distinct from the date column, so the aggregation succeeds; its
single output key is the calendar date 2024-01-01. -/
theorem time_series_drops_unparseable_dates_witness :
    (∀ p ∈ [(Value.vDate 20240101, Value.vNum 30)], ∃ n, p.1 = Value.vDate n) ∧
      (daily_sales c5Table "Date Ordered" "Sales").isSome :=
  ⟨time_series_drops_unparseable_dates.2.2.1 c5Table "Date Ordered" "Sales"
      [(Value.vDate 20240101, Value.vNum 30)] (by decide),
    time_series_drops_unparseable_dates.2.2.2 c5Table "Date Ordered" "Sales"
      (by decide) (by decide)⟩


/-- C6.  The time-series output is strictly ascending in its date keys
(hence duplicate-free), and on a nonempty output the derived peak is a
date of the output achieving the maximal summed value. -/
theorem daily_sales_strictly_sorted_peak :
    ∀ (df : DataFrame) (dcol scol : String) (out : List (Value × Value)),
      daily_sales df dcol scol = some out →
        out.Pairwise (fun a b => a.1 < b.1) ∧
        (out ≠ [] → ∃ pk, serIdxmax out = some pk ∧ (pk, serMax out) ∈ out ∧
          ∀ p ∈ out, p.2 ≤ serMax out) := by
  intro df dcol scol out h
  rcases Option.map_eq_some'.mp h with ⟨out0, hgb, hsort⟩
  subst hsort
  have hperm := List.perm_insertionSort ascKey out0
  have hnodup : ((out0.insertionSort ascKey).map Prod.fst).Nodup := by
    apply (hperm.map Prod.fst).symm.nodup
    rw [(groupbySum_eq_some hgb).1]
    exact groupKeys_nodup _ _
  refine ⟨pairwise_lt_of_sorted_ascKey (List.sorted_insertionSort ascKey out0) hnodup, ?_⟩
  intro hne
  rcases serIdxmax_isSome hne with ⟨pk, hpk⟩
  exact ⟨pk, hpk, serIdxmax_mem hpk, fun p hp => le_serMax hp⟩

/-- Witness for C6: the two-date table, whose output is sorted
ascending by date with peak 2024-01-01 (total 27). -/
theorem daily_sales_strictly_sorted_peak_witness :
    [(Value.vDate 20240101, Value.vNum 27),
        (Value.vDate 20240102, Value.vNum 10)].Pairwise (fun a b => a.1 < b.1) ∧
      ([(Value.vDate 20240101, Value.vNum 27), (Value.vDate 20240102, Value.vNum 10)] ≠
          ([] : List (Value × Value)) →
        ∃ pk, serIdxmax [(Value.vDate 20240101, Value.vNum 27),
            (Value.vDate 20240102, Value.vNum 10)] = some pk ∧
          (pk, serMax [(Value.vDate 20240101, Value.vNum 27),
            (Value.vDate 20240102, Value.vNum 10)]) ∈
            [(Value.vDate 20240101, Value.vNum 27), (Value.vDate 20240102, Value.vNum 10)] ∧
          ∀ p ∈ [(Value.vDate 20240101, Value.vNum 27), (Value.vDate 20240102, Value.vNum 10)],
            p.2 ≤ serMax [(Value.vDate 20240101, Value.vNum 27),
              (Value.vDate 20240102, Value.vNum 10)]) :=
  daily_sales_strictly_sorted_peak c6Table "Date Ordered" "Sales"
    [(Value.vDate 20240101, Value.vNum 27), (Value.vDate 20240102, Value.vNum 10)] (by decide)

-- ---- facts about value_counts and rating_counts ----

theorem value_counts_map_fst (vs : List Value) :
    (value_counts vs).map Prod.fst = vs.dedup := by
  simp [value_counts, List.map_map, Function.comp_def]

theorem mem_value_counts {vs : List Value} {p : Value × Value} (h : p ∈ value_counts vs) :
    p.2 = Value.vNum ((vs.count p.1 : Nat) : Int) := by
  rcases List.mem_map.mp h with ⟨k, _, hk⟩
  rw [← hk]

theorem rating_counts_perm (df : DataFrame) (c : String) :
    List.Perm (rating_counts df c) (value_counts (ratings df c)) :=
  List.perm_insertionSort ascKey _

theorem rating_counts_pairwise (df : DataFrame) (c : String) :
    (rating_counts df c).Pairwise (fun a b => a.1 < b.1) := by
  apply pairwise_lt_of_sorted_ascKey (List.sorted_insertionSort ascKey _)
  apply ((rating_counts_perm df c).map Prod.fst).symm.nodup
  rw [value_counts_map_fst]
  exact List.nodup_dedup _

theorem mem_rating_counts_fst {df : DataFrame} {c : String} {k : Value} :
    k ∈ (rating_counts df c).map Prod.fst ↔ k ≠ Value.vNA ∧ k ∈ colVals df c := by
  rw [((rating_counts_perm df c).map Prod.fst).mem_iff, value_counts_map_fst, List.mem_dedup]
  unfold ratings
  rw [List.mem_filter]
  simp [and_comm]


/-- C7.  The ratings aggregator drops missing ratings, counts each
distinct remaining value, and presents the pairs strictly ascending by
rating value, preserving every distinct non-missing value of the
column; on a nonempty ratings series the mode is an entry of maximal
count.  On Scenario 3 the counts are {3:1, 4:1, 5:3} and the mode 5. -/
theorem rating_counts_ascending_mode :
    (satisfaction_col c7Table = some "Satisfaction Rating" ∧
      rating_counts c7Table "Satisfaction Rating" =
        [(Value.vNum 3, Value.vNum 1), (Value.vNum 4, Value.vNum 1),
          (Value.vNum 5, Value.vNum 3)] ∧
      most_common_rating c7Table "Satisfaction Rating" = some (Value.vNum 5)) ∧
    ∀ (df : DataFrame) (c : String),
      (∀ k, k ∈ (rating_counts df c).map Prod.fst ↔ k ≠ Value.vNA ∧ k ∈ colVals df c) ∧
      (rating_counts df c).Pairwise (fun a b => a.1 < b.1) ∧
      (∀ p ∈ rating_counts df c, p.2 = Value.vNum (((ratings df c).count p.1 : Nat) : Int)) ∧
      (ratings df c ≠ [] →
        ∃ m, most_common_rating df c = some m ∧
          (m, serMax (rating_counts df c)) ∈ rating_counts df c ∧
          ∀ p ∈ rating_counts df c, p.2 ≤ serMax (rating_counts df c)) := by
  refine ⟨⟨by decide, by decide, by decide⟩, ?_⟩
  intro df c
  refine ⟨fun k => mem_rating_counts_fst, rating_counts_pairwise df c, ?_, ?_⟩
  · intro p hp
    exact mem_value_counts ((rating_counts_perm df c).mem_iff.mp hp)
  · intro hne
    have hne' : rating_counts df c ≠ [] := by
      intro hnil
      have : value_counts (ratings df c) = [] :=
        List.Perm.eq_nil ((rating_counts_perm df c).symm.trans (hnil ▸ List.Perm.refl _))
      unfold value_counts at this
      rw [List.map_eq_nil_iff] at this
      exact hne ((List.dedup_eq_nil _).mp this)
    rcases serIdxmax_isSome hne' with ⟨m, hm⟩
    exact ⟨m, hm, serIdxmax_mem hm, fun p hp => le_serMax hp⟩

/-- Witness for C7: Scenario 3's table, whose nonempty ratings series
yields a mode of maximal count. -/
theorem rating_counts_ascending_mode_witness :
    ∃ m, most_common_rating c7Table "Satisfaction Rating" = some m ∧
      (m, serMax (rating_counts c7Table "Satisfaction Rating")) ∈
        rating_counts c7Table "Satisfaction Rating" ∧
      ∀ p ∈ rating_counts c7Table "Satisfaction Rating",
        p.2 ≤ serMax (rating_counts c7Table "Satisfaction Rating") :=
  (rating_counts_ascending_mode.2 c7Table "Satisfaction Rating").2.2.2 (by decide)


/-- C10.  Because the counts are sorted ascending by rating value before
`idxmax`, the reported mode is of maximal count and is the least rating
value among those tied for the maximal count; on the tied ratings
[4, 4, 5, 5] it is 4. -/
theorem most_common_rating_tie_breaks_low :
    (most_common_rating c10Table "Satisfaction Rating" = some (Value.vNum 4)) ∧
    ∀ (df : DataFrame) (c : String) (m : Value),
      most_common_rating df c = some m →
        (m, serMax (rating_counts df c)) ∈ rating_counts df c ∧
        ∀ p ∈ rating_counts df c, p.2 = serMax (rating_counts df c) → m ≤ p.1 := by
  refine ⟨by decide, ?_⟩
  intro df c m hm
  exact ⟨serIdxmax_mem hm, serIdxmax_first (rating_counts_pairwise df c) hm⟩

/-- Witness for C10: the tied table, where the mode 4 is the least of
the two values with count 2. -/
theorem most_common_rating_tie_breaks_low_witness :
    ((Value.vNum 4 : Value), serMax (rating_counts c10Table "Satisfaction Rating")) ∈
        rating_counts c10Table "Satisfaction Rating" ∧
      ∀ p ∈ rating_counts c10Table "Satisfaction Rating",
        p.2 = serMax (rating_counts c10Table "Satisfaction Rating") →
          (Value.vNum 4 : Value) ≤ p.1 :=
  most_common_rating_tie_breaks_low.2 c10Table "Satisfaction Rating" (Value.vNum 4) (by decide)


/-- C8.  When no column matches any SalesAmount alias, the Category and
Time-Series views both report the insufficient-columns error, while the
Ratings view never reports it as long as its own column resolves. -/
theorem unresolved_sales_scopes_to_dependent_views :
    (sales_col c8Table = none ∧ satisfaction_col c8Table = some "Satisfaction Rating") ∧
    ∀ df : DataFrame, sales_col df = none →
      categoryTab df = some ViewResult.insufficientColumns ∧
      timeTab df = some ViewResult.insufficientColumns ∧
      ∀ c, satisfaction_col df = some c → ratingsTab df ≠ ViewResult.insufficientColumns := by
  refine ⟨⟨by decide, by decide⟩, ?_⟩
  intro df h
  refine ⟨?_, ?_, ?_⟩
  · cases hc : category_col df <;> simp [categoryTab, hc, h]
  · cases hd : date_col df <;> simp [timeTab, hd, h]
  · intro c hc
    by_cases hr : ratings df c = [] <;> simp [ratingsTab, hc, hr]

/-- Witness for C8: Scenario 4's table, whose Ratings view proceeds. -/
theorem unresolved_sales_scopes_to_dependent_views_witness :
    categoryTab c8Table = some ViewResult.insufficientColumns ∧
      timeTab c8Table = some ViewResult.insufficientColumns ∧
      ∀ c, satisfaction_col c8Table = some c →
        ratingsTab c8Table ≠ ViewResult.insufficientColumns :=
  unresolved_sales_scopes_to_dependent_views.2 c8Table (by decide)


/-- C9.  A view whose required columns resolve but whose usable rows
all drop out signals the "no data" notice — an outcome distinct from
the insufficient-columns error: an empty grouped result for the
category view, zero parseable dates for the time-series view, and an
all-missing rating column for the ratings view. -/
theorem empty_result_distinct_from_missing_columns :
    (ViewResult.noData ≠ ViewResult.insufficientColumns) ∧
    (∀ (df : DataFrame) (c s : String),
      category_col df = some c → sales_col df = some s →
      category_sales df c s = some [] → categoryTab df = some ViewResult.noData) ∧
    (∀ (df : DataFrame) (d s : String),
      date_col df = some d → sales_col df = some s →
      daily_sales df d s = some [] → timeTab df = some ViewResult.noData) ∧
    (∀ (df : DataFrame) (c : String),
      satisfaction_col df = some c → ratings df c = [] →
      ratingsTab df = ViewResult.noData) := by
  refine ⟨by decide, ?_, ?_, ?_⟩
  · intro df c s h1 h2 h3
    simp [categoryTab, h1, h2, h3]
  · intro df d s h1 h2 h3
    simp [timeTab, h1, h2, h3]
  · intro df c h1 h2
    simp [ratingsTab, h1, h2]

/-- Witness for C9: the all-dropping table, on which all three views
report "no data". -/
theorem empty_result_distinct_from_missing_columns_witness :
    categoryTab c9Table = some ViewResult.noData ∧
      timeTab c9Table = some ViewResult.noData ∧
      ratingsTab c9Table = ViewResult.noData :=
  ⟨empty_result_distinct_from_missing_columns.2.1 c9Table "Category" "Sales"
      (by decide) (by decide) (by decide),
    empty_result_distinct_from_missing_columns.2.2.1 c9Table "Date Ordered" "Sales"
      (by decide) (by decide) (by decide),
    empty_result_distinct_from_missing_columns.2.2.2 c9Table "Service Satisfaction Rating"
      (by decide) (by decide)⟩

end Dashboard
